/-
Verification of the digest-baseline reconciler and the hardened image
pipeline of the factorio-hardened repository.

The Go code is shallowly embedded: Go maps over architecture keys become
association lists with unique keys, external effects (docker invocations,
file reads, the wall clock) become explicit inputs, and file writes become
explicit state passing on an Option String holding the baseline file
contents.  All definitions are translated from the source files
(the SrcDigest namespace of the mage build, and the Hardened namespace in
magefiles of the system build file).
-/

import Mathlib

/-- Association list from architecture keys to digest strings, modelling the
Go map used for the digests field of the baseline record. -/
abbrev DigestMap := List (String × String)

/-- Map lookup, modelling Go map indexing. -/
def lookupArch (m : DigestMap) (k : String) : Option String :=
  match m with
  | [] => none
  | (k2, v) :: rest => if k2 = k then some v else lookupArch rest k

/-- Map update or insert, modelling a Go map assignment. -/
def setArch (m : DigestMap) (k v : String) : DigestMap :=
  match m with
  | [] => [(k, v)]
  | (k2, v2) :: rest => if k2 = k then (k2, v) :: rest else (k2, v2) :: setArch rest k v

/-- Constant upstreamImage from the SrcDigest source file. -/
def upstreamImage : String := "factoriotools/factorio"

/-- Constant factorioTag from the SrcDigest source file. -/
def factorioTag : String := "2.0.69"

/-- Whitespace predicate used when modelling TrimSpace from the Go strings
package (the ASCII whitespace that can realistically occur in manifest
architecture fields). -/
def isSpaceChar (c : Char) : Bool :=
  c == ' ' || c == '\t' || c == '\n' || c == '\r'

/-- Dropping whitespace from both ends of a character list. -/
def trimChars (l : List Char) : List Char :=
  ((l.dropWhile isSpaceChar).reverse.dropWhile isSpaceChar).reverse

/-- ToLower from the Go strings package, modelled letterwise. -/
def lowerStr (s : String) : String := String.mk (s.data.map Char.toLower)

/-- TrimSpace from the Go strings package, modelled letterwise. -/
def trimStr (s : String) : String := String.mk (trimChars s.data)

/-- isValidArch from the source: an architecture is kept in the baseline
precisely when it trims and lowercases to amd64 or arm64. -/
def isValidArch (arch : String) : Bool :=
  match lowerStr (trimStr arch) with
  | "amd64" => true
  | "arm64" => true
  | _ => false

/-- Key normalization done in the Sync manifest loop: ToLower then TrimSpace. -/
def archKey (s : String) : String := trimStr (lowerStr s)

/-- MultiArchMetadata from the source.  UpdatedAt is modelled as a natural
number of nanoseconds since the epoch. -/
structure MultiArchMetadata where
  repository : String
  tag : String
  manifestList : String
  digests : DigestMap
  updatedAt : Nat
deriving DecidableEq

/-- One platform entry of the fetched manifest list, as decoded by Sync. -/
structure ManifestEntry where
  digest : String
  architecture : String
  os : String
deriving DecidableEq

/-- The carry-forward loop of Sync: every entry of the existing digests map
is copied into the fresh (empty) map of the new record, with no
architecture check. -/
def carryForward (existing : DigestMap) : DigestMap :=
  existing.foldl (fun acc p => setArch acc p.1 p.2) []

/-- The manifest loop of Sync: each platform entry is normalized, skipped
when the normalized key is not in the allow-list, and otherwise written
over the accumulated map. -/
def applyManifest (acc : DigestMap) (ms : List ManifestEntry) : DigestMap :=
  ms.foldl (fun acc m =>
    let arch := archKey m.architecture
    if isValidArch arch = false then acc else setArch acc arch m.digest) acc

/-- The digests map produced by Sync: carry-forward first, manifest
entries applied on top. -/
def syncDigests (existing : DigestMap) (ms : List ManifestEntry) : DigestMap :=
  applyManifest (carryForward existing) ms

/-- Truncation of a nanosecond wall-clock reading to whole seconds,
modelling Truncate applied to the current UTC time in Sync. -/
def truncSec (t : Nat) : Nat := t - t % 1000000000

/-- The environment one Sync call observes: the fetched manifest-list
digest, the decoded platform entries, and the wall clock at the call. -/
structure SyncEnv where
  listDigest : String
  manifests : List ManifestEntry
  nowNanos : Nat
deriving DecidableEq

/-- The record Sync builds fully in memory before persisting anything.
The prior argument is the parsed previous baseline, or none when the file
is absent or does not parse (Sync then starts from an empty map). -/
def Sync (prior : Option MultiArchMetadata) (env : SyncEnv) : MultiArchMetadata :=
  { repository := upstreamImage
    tag := factorioTag
    manifestList := env.listDigest
    digests := syncDigests (match prior with | some m => m.digests | none => []) env.manifests
    updatedAt := truncSec env.nowNanos }

/-- The persist step at the end of Sync.  The source opens the baseline
file with a plain create call, which truncates it in place, and then
streams the JSON encoding into it.  prev is the prior contents of the
baseline file (none when absent); createOk and encodeOk say whether the
create and the encode succeed; encoded is the full encoding of the record;
writtenBytes is whatever prefix a failing encoder managed to write after
the truncation.  The result is the new file contents paired with the
error returned by Sync. -/
def syncPersist (prev : Option String) (createOk : Bool) (encodeOk : Bool)
    (encoded writtenBytes : String) : Option String × Option String :=
  if createOk = false then (prev, some "failed to write baseline file")
  else if encodeOk then (some encoded, none)
  else (some writtenBytes, some "failed to encode baseline metadata")

/-- A whole Sync run at the level of the baseline file: the record is built
fully in memory and then handed to the persist step, encode being the JSON
encoder. -/
def SyncRun (prior : Option MultiArchMetadata) (env : SyncEnv) (prevFile : Option String)
    (encode : MultiArchMetadata → String) (createOk encodeOk : Bool) (writtenBytes : String) :
    Option String × Option String :=
  let record := Sync prior env
  syncPersist prevFile createOk encodeOk (encode record) writtenBytes

/-- Outcome of one external digest query by Compare. -/
inductive FetchResult
  | ok (digest : String)
  | fail (msg : String)
deriving DecidableEq

/-- What Compare observes from the outside world: whether the docker binary
is on the path, and the two digest queries it issues. -/
structure CompareEnv where
  dockerAvailable : Bool
  listDigest : FetchResult
  archDigest : FetchResult
deriving DecidableEq

/-- State of the baseline file as seen by a read followed by a JSON
decode. -/
inductive FileRead
  | absent
  | readError (msg : String)
  | parseFailed (msg : String)
  | parsed (meta : MultiArchMetadata)
deriving DecidableEq

/-- The classification Compare produces.  In the source every non-nil
branch is an error value; the verdicts here name the distinct branches. -/
inductive Verdict
  | upToDate
  | noBaseline
  | manifestDrifted
  | archDrifted
  | missingArchEntry
  | toolError (msg : String)
deriving DecidableEq

/-- Error text of ensureDockerAvailable when the binary is missing. -/
def dockerMissingMsg : String := "docker not found in PATH"

/-- Compare from the source, branch for branch: docker availability check,
manifest-list fetch, per-architecture fetch, baseline read, baseline parse,
then manifest-list comparison and finally the per-architecture
comparison. -/
def compareVerdict (env : CompareEnv) (fs : FileRead) (localArch : String) : Verdict :=
  if env.dockerAvailable = false then Verdict.toolError dockerMissingMsg
  else
    match env.listDigest with
    | FetchResult.fail e => Verdict.toolError e
    | FetchResult.ok currentList =>
      match env.archDigest with
      | FetchResult.fail e => Verdict.toolError e
      | FetchResult.ok currentArch =>
        match fs with
        | FileRead.absent => Verdict.noBaseline
        | FileRead.readError e => Verdict.toolError ("cannot read baseline file: " ++ e)
        | FileRead.parseFailed e => Verdict.toolError ("failed to parse baseline: " ++ e)
        | FileRead.parsed meta =>
          if meta.manifestList ≠ currentList then Verdict.manifestDrifted
          else
            match lookupArch meta.digests localArch with
            | some oldArchDigest =>
              if oldArchDigest ≠ currentArch then Verdict.archDrifted else Verdict.upToDate
            | none => Verdict.missingArchEntry

/-- Compare with the baseline file threaded through explicitly: the source
only ever reads the file, so the state comes back unchanged. -/
def compareRun (env : CompareEnv) (fs : FileRead) (localArch : String) : Verdict × FileRead :=
  (compareVerdict env fs localArch, fs)

/-- The error string each Compare branch returns in the source (none for
the nil return of the up-to-date branch). -/
def verdictToError (localArch : String) : Verdict → Option String
  | Verdict.upToDate => none
  | Verdict.noBaseline => some "no baseline file found"
  | Verdict.manifestDrifted => some "manifest list digest changed"
  | Verdict.archDrifted => some ("digest changed for " ++ localArch)
  | Verdict.missingArchEntry => some ("missing digest for " ++ localArch)
  | Verdict.toolError msg => some msg

/-- Whether the second list is an initial segment of the first. -/
def startsWithChars (s pat : List Char) : Bool :=
  match s, pat with
  | _, [] => true
  | [], _ :: _ => false
  | c :: cs, p :: ps => c == p && startsWithChars cs ps

/-- Whether the second list occurs contiguously inside the first. -/
def hasSubChars (s pat : List Char) : Bool :=
  match s with
  | [] => pat.isEmpty
  | _ :: rest => startsWithChars s pat || hasSubChars rest pat

/-- Substring test modelling Contains from the Go strings package. -/
def containsSub (s pat : String) : Bool := hasSubChars s.data pat.data

/-- The test the composite workflow applies to the Compare error: the
lowercased error text must contain the no-baseline marker. -/
def containsNoBaseline (e : String) : Bool := containsSub (lowerStr e) "no baseline"

/-- The composite SrcDigest All workflow over the Compare error and the
error of the Sync call it may make.  The second component records whether
Sync was invoked. -/
def SrcDigestAll (compareErr : Option String) (syncErr : Option String) :
    Option String × Bool :=
  match compareErr with
  | some e =>
    if containsNoBaseline e then
      match syncErr with
      | some s => (some ("initial sync failed: " ++ s), true)
      | none => (none, true)
    else
      match syncErr with
      | some s => (some ("sync failed: " ++ s), true)
      | none => (none, true)
  | none => (none, false)

/-- The five pipeline stages of the Hardened namespace. -/
inductive Stage
  | prepare
  | build
  | verify
  | promote
  | clean
deriving DecidableEq

/-- Outcome of each stage body for one run, none meaning success. -/
structure StageErrs where
  prepare : Option String
  build : Option String
  verify : Option String
  promote : Option String
  clean : Option String
deriving DecidableEq

/-- Hardened All from the source: each of the four gates returns its
wrapped failure immediately, and only when all four succeed is Clean run,
whose failure is merely printed as a warning before the nil return.  The
second component lists the stages whose bodies were entered. -/
def HardenedAll (r : StageErrs) : Option String × List Stage :=
  match r.prepare with
  | some e => (some ("prepare stage failed: " ++ e), [Stage.prepare])
  | none =>
    match r.build with
    | some e => (some ("build stage failed: " ++ e), [Stage.prepare, Stage.build])
    | none =>
      match r.verify with
      | some e => (some ("verification stage failed: " ++ e),
          [Stage.prepare, Stage.build, Stage.verify])
      | none =>
        match r.promote with
        | some e => (some ("promotion stage failed: " ++ e),
            [Stage.prepare, Stage.build, Stage.verify, Stage.promote])
        | none => (none,
            [Stage.prepare, Stage.build, Stage.verify, Stage.promote, Stage.clean])

/-- Hardened Clean from the source: removal failures of the generated
files are printed and swallowed, so Clean returns nil on every path. -/
def HardenedClean (_fileExists _removeSucceeds : Bool) : Option String := none

/-- Map update at the written key returns the written value. -/
theorem lookup_setArch_self (m : DigestMap) (k v : String) :
    lookupArch (setArch m k v) k = some v := by
  induction m with
  | nil => simp [setArch, lookupArch]
  | cons p rest ih =>
    obtain ⟨k2, v2⟩ := p
    by_cases h : k2 = k
    · simp [setArch, lookupArch, h]
    · simp [setArch, lookupArch, h, ih]

/-- Map update at one key leaves lookups at other keys unchanged. -/
theorem lookup_setArch_ne (m : DigestMap) (k k2 v : String) (h : k2 ≠ k) :
    lookupArch (setArch m k2 v) k = lookupArch m k := by
  induction m with
  | nil => simp [setArch, lookupArch, h]
  | cons p rest ih =>
    obtain ⟨k3, v3⟩ := p
    by_cases h3 : k3 = k2
    · subst h3
      simp [setArch, lookupArch, h]
    · simp [setArch, lookupArch, h3, ih]

/-- A key that occurs nowhere in the map looks up to none. -/
theorem lookup_eq_none_of_not_mem (m : DigestMap) (k : String)
    (h : k ∉ m.map Prod.fst) : lookupArch m k = none := by
  induction m with
  | nil => rfl
  | cons p rest ih =>
    obtain ⟨k2, v2⟩ := p
    simp only [List.map_cons, List.mem_cons, not_or] at h
    have h1 : ¬ (k2 = k) := fun hh => h.1 hh.symm
    simp [lookupArch, h1, ih h.2]

/-- Folding map updates over pairs whose keys all differ from k does not
change the lookup at k. -/
theorem foldl_set_lookup_not_key (l : DigestMap) : ∀ (acc : DigestMap) (k : String),
    (∀ p ∈ l, p.1 ≠ k) →
    lookupArch (l.foldl (fun a p => setArch a p.1 p.2) acc) k = lookupArch acc k := by
  induction l with
  | nil => intro acc k _; rfl
  | cons p rest ih =>
    intro acc k h
    simp only [List.foldl_cons]
    rw [ih _ k (fun q hq => h q (List.mem_cons_of_mem _ hq))]
    exact lookup_setArch_ne acc k p.1 p.2 (h p (List.mem_cons_self _ _))

/-- Folding map updates over a list with unique keys: a key bound in the
list wins, otherwise the accumulator answers. -/
theorem foldl_set_lookup (l : DigestMap) : ∀ (acc : DigestMap) (k : String),
    (l.map Prod.fst).Nodup →
    lookupArch (l.foldl (fun a p => setArch a p.1 p.2) acc) k
      = (lookupArch l k).or (lookupArch acc k) := by
  induction l with
  | nil => intro acc k _; rfl
  | cons p rest ih =>
    intro acc k h
    obtain ⟨k2, v2⟩ := p
    simp only [List.map_cons, List.nodup_cons] at h
    simp only [List.foldl_cons]
    rw [ih _ k h.2]
    by_cases hk : k2 = k
    · subst hk
      rw [lookup_eq_none_of_not_mem rest k2 h.1]
      simp [lookupArch, lookup_setArch_self, Option.or]
    · rw [lookup_setArch_ne acc k k2 v2 hk]
      simp [lookupArch, hk]

/-- The carry-forward copy of a unique-keyed map answers exactly like the
map itself. -/
theorem carryForward_lookup (l : DigestMap) (k : String)
    (h : (l.map Prod.fst).Nodup) :
    lookupArch (carryForward l) k = lookupArch l k := by
  unfold carryForward
  rw [foldl_set_lookup l [] k h]
  cases hl : lookupArch l k <;> simp [Option.or, lookupArch]

/-- The manifest loop leaves the lookup at k unchanged whenever every
manifest entry whose normalized key is k is outside the allow-list. -/
theorem applyManifest_lookup_untouched (ms : List ManifestEntry) :
    ∀ (acc : DigestMap) (k : String),
    (∀ m ∈ ms, archKey m.architecture = k → isValidArch k = false) →
    lookupArch (applyManifest acc ms) k = lookupArch acc k := by
  induction ms with
  | nil => intro acc k _; rfl
  | cons m rest ih =>
    intro acc k h
    show lookupArch (applyManifest
        (if isValidArch (archKey m.architecture) = false then acc
         else setArch acc (archKey m.architecture) m.digest) rest) k = lookupArch acc k
    by_cases hv : isValidArch (archKey m.architecture) = false
    · rw [if_pos hv]
      exact ih _ k (fun q hq => h q (List.mem_cons_of_mem _ hq))
    · rw [if_neg hv]
      rw [ih _ k (fun q hq => h q (List.mem_cons_of_mem _ hq))]
      refine lookup_setArch_ne acc k _ _ (fun he => ?_)
      exact hv (by rw [he]; exact h m (List.mem_cons_self _ _) he)

/-- Truncation to whole seconds as a multiple of the second. -/
theorem truncSec_eq_mul_div (t : Nat) :
    truncSec t = 1000000000 * (t / 1000000000) := by
  unfold truncSec
  omega

/-- Truncation to whole seconds is monotone. -/
theorem truncSec_mono {t1 t2 : Nat} (h : t1 ≤ t2) : truncSec t1 ≤ truncSec t2 := by
  rw [truncSec_eq_mul_div, truncSec_eq_mul_div]
  exact Nat.mul_le_mul le_rfl (Nat.div_le_div_right h)

/-- Any non-nil Compare error makes the composite workflow call Sync. -/
theorem srcDigestAll_some_snd (e : String) (s : Option String) :
    (SrcDigestAll (some e) s).2 = true := by
  unfold SrcDigestAll
  cases h : containsNoBaseline e <;> cases s <;> simp [h]

/-- Claim C1: when the stored manifest-list digest differs from the
currently fetched one, Compare classifies the run as manifest-list drift
whatever per-architecture digest was fetched, and when the manifest-list
digests match it returns the missing-entry verdict if the baseline has no
entry for the local architecture, the drift verdict if the stored entry
differs from the current per-architecture digest, and the up-to-date
verdict when it matches: the first mismatch wins. -/
theorem c1_compare_first_mismatch_wins
    (meta : MultiArchMetadata) (localArch currentList currentArch : String) :
    (meta.manifestList ≠ currentList →
      ∀ other, compareVerdict ⟨true, FetchResult.ok currentList, FetchResult.ok other⟩
          (FileRead.parsed meta) localArch = Verdict.manifestDrifted) ∧
    (meta.manifestList = currentList →
      (lookupArch meta.digests localArch = none →
        compareVerdict ⟨true, FetchResult.ok currentList, FetchResult.ok currentArch⟩
          (FileRead.parsed meta) localArch = Verdict.missingArchEntry) ∧
      (∀ oldD, lookupArch meta.digests localArch = some oldD → oldD ≠ currentArch →
        compareVerdict ⟨true, FetchResult.ok currentList, FetchResult.ok currentArch⟩
          (FileRead.parsed meta) localArch = Verdict.archDrifted) ∧
      (∀ oldD, lookupArch meta.digests localArch = some oldD → oldD = currentArch →
        compareVerdict ⟨true, FetchResult.ok currentList, FetchResult.ok currentArch⟩
          (FileRead.parsed meta) localArch = Verdict.upToDate)) := by
  constructor
  · intro hne other
    simp [compareVerdict, hne]
  · intro heq
    refine ⟨fun hl => ?_, fun oldD hl hne => ?_, fun oldD hl he => ?_⟩
    · simp [compareVerdict, heq, hl]
    · simp [compareVerdict, heq, hl, hne]
    · simp [compareVerdict, heq, hl, he]

/-- Witness for claim C1 at a concrete drifted input. -/
theorem c1_witness :
    compareVerdict ⟨true, FetchResult.ok "sha256:new", FetchResult.ok "sha256:x"⟩
      (FileRead.parsed ⟨"factoriotools/factorio", "2.0.69", "sha256:old", [], 0⟩) "amd64"
      = Verdict.manifestDrifted :=
  (c1_compare_first_mismatch_wins ⟨"factoriotools/factorio", "2.0.69", "sha256:old", [], 0⟩
      "amd64" "sha256:new" "sha256:x").1 (by decide) "sha256:x"

/-- Counterexample to claim C2: the persist step truncates the baseline
file in place, so when the encode fails the previous contents are gone and
an empty (truncated) file is left behind. -/
theorem c2_counterexample :
    (syncPersist (some "previousbaseline") true false "encodedrecord" "").2 ≠ none ∧
    (syncPersist (some "previousbaseline") true false "encodedrecord" "").1
      ≠ some "previousbaseline" ∧
    (syncPersist (some "previousbaseline") true false "encodedrecord" "").1 = some "" := by
  decide

/-- Claim C2 amended: the record is built fully in memory and only then
persisted, and a failed create leaves the previous file intact, but the
write is not atomic: the file is truncated in place, so a failed encode
leaves whatever bytes the encoder wrote, not the previous baseline. -/
theorem c2_save_not_atomic (prior : Option MultiArchMetadata) (env : SyncEnv)
    (prevFile : Option String) (encode : MultiArchMetadata → String) (w : String) :
    (∀ encodeOk, SyncRun prior env prevFile encode false encodeOk w
        = (prevFile, some "failed to write baseline file")) ∧
    SyncRun prior env prevFile encode true true w
        = (some (encode (Sync prior env)), none) ∧
    SyncRun prior env prevFile encode true false w
        = (some w, some "failed to encode baseline metadata") := by
  refine ⟨fun encodeOk => ?_, rfl, rfl⟩
  cases encodeOk <;> rfl

/-- Counterexample to claim C3: when the Prepare gate fails, the full
pipeline returns immediately; the Clean stage is not attempted. -/
theorem c3_counterexample :
    HardenedAll ⟨some "boom", none, none, none, none⟩
      = (some ("prepare stage failed: " ++ "boom"), [Stage.prepare]) ∧
    Stage.clean ∉ (HardenedAll ⟨some "boom", none, none, none, none⟩).2 := by
  decide

/-- Claim C3 amended: the full pipeline attempts Clean only when Prepare,
Build, Verify and Promote all succeed; when an earlier gate fails the run
reports that failure and Clean is skipped; and the outcome of Clean never
influences the reported result, so a Clean failure is only a warning and
never masks an earlier failure nor fails a successful run. -/
theorem c3_clean_only_after_success (r : StageErrs) :
    ((r.prepare ≠ none ∨ r.build ≠ none ∨ r.verify ≠ none ∨ r.promote ≠ none) →
      Stage.clean ∉ (HardenedAll r).2 ∧ (HardenedAll r).1 ≠ none) ∧
    (r.prepare = none → r.build = none → r.verify = none → r.promote = none →
      Stage.clean ∈ (HardenedAll r).2 ∧ (HardenedAll r).1 = none) ∧
    (∀ e1 e2 : Option String,
      HardenedAll { r with clean := e1 } = HardenedAll { r with clean := e2 }) := by
  obtain ⟨p, b, v, pr, c⟩ := r
  cases p <;> cases b <;> cases v <;> cases pr <;> simp [HardenedAll]

/-- Witness for the amended claim C3 at a concrete failing Prepare. -/
theorem c3_witness :
    Stage.clean ∉ (HardenedAll ⟨some "x", none, none, none, none⟩).2 ∧
    (HardenedAll ⟨some "x", none, none, none, none⟩).1 ≠ none :=
  (c3_clean_only_after_success ⟨some "x", none, none, none, none⟩).1 (Or.inl (by decide))

/-- Claim C4: with an existing baseline holding amd64 only and a fetched
manifest holding arm64 only, Sync produces exactly the two-entry map, and
in general any architecture without a manifest entry keeps its stored
digest: Sync is carry-forward first, overwrite second. -/
theorem c4_sync_carry_forward :
    (lookupArch (syncDigests [("amd64", "sha256:d1")]
        [⟨"sha256:d2", "arm64", "linux"⟩]) "amd64" = some "sha256:d1") ∧
    (lookupArch (syncDigests [("amd64", "sha256:d1")]
        [⟨"sha256:d2", "arm64", "linux"⟩]) "arm64" = some "sha256:d2") ∧
    (∀ k, k ≠ "amd64" → k ≠ "arm64" →
      lookupArch (syncDigests [("amd64", "sha256:d1")]
        [⟨"sha256:d2", "arm64", "linux"⟩]) k = none) ∧
    (∀ (old : DigestMap) (ms : List ManifestEntry) (k : String),
      (old.map Prod.fst).Nodup →
      (∀ m ∈ ms, archKey m.architecture ≠ k) →
      lookupArch (syncDigests old ms) k = lookupArch old k) := by
  refine ⟨by decide, by decide, fun k h1 h2 => ?_, fun old ms k hnd hms => ?_⟩
  · have hr : syncDigests [("amd64", "sha256:d1")] [⟨"sha256:d2", "arm64", "linux"⟩]
        = [("amd64", "sha256:d1"), ("arm64", "sha256:d2")] := by decide
    rw [hr]
    simp only [lookupArch]
    rw [if_neg (fun h => h1 h.symm), if_neg (fun h => h2 h.symm)]
  · unfold syncDigests
    rw [applyManifest_lookup_untouched ms _ k (fun m hm he => absurd he (hms m hm))]
    exact carryForward_lookup old k hnd

/-- Witness for claim C4 at a concrete untouched key. -/
theorem c4_witness :
    lookupArch (syncDigests [("amd64", "sha256:d1")]
      [⟨"sha256:d2", "arm64", "linux"⟩]) "riscv64" = none :=
  c4_sync_carry_forward.2.2.1 "riscv64" (by decide) (by decide)

/-- Claim C5: a manifest platform entry whose architecture does not
normalize to amd64 or arm64 is never written by the manifest loop, and
when the prior baseline respects the allow-list the resulting digests map
has no key for such an architecture at all. -/
theorem c5_allowlist_enforcement :
    (∀ (old : DigestMap) (ms : List ManifestEntry) (k : String),
      isValidArch k = false →
      lookupArch (syncDigests old ms) k = lookupArch (carryForward old) k) ∧
    (∀ (old : DigestMap) (ms : List ManifestEntry) (k : String),
      (∀ p ∈ old, isValidArch p.1 = true) → isValidArch k = false →
      lookupArch (syncDigests old ms) k = none) := by
  constructor
  · intro old ms k hk
    unfold syncDigests
    exact applyManifest_lookup_untouched ms _ k (fun _ _ _ => hk)
  · intro old ms k hvalid hk
    unfold syncDigests
    rw [applyManifest_lookup_untouched ms _ k (fun _ _ _ => hk)]
    unfold carryForward
    rw [foldl_set_lookup_not_key old [] k (fun p hp he => by
      have hv := hvalid p hp
      rw [he] at hv
      rw [hv] at hk
      exact Bool.noConfusion hk)]
    rfl

/-- Witness for claim C5 at a concrete disallowed architecture. -/
theorem c5_witness :
    lookupArch (syncDigests [("amd64", "sha256:d1")]
      [⟨"sha256:zzz", "s390x", "linux"⟩, ⟨"sha256:d2", "arm64", "linux"⟩]) "s390x" = none :=
  c5_allowlist_enforcement.2 [("amd64", "sha256:d1")]
    [⟨"sha256:zzz", "s390x", "linux"⟩, ⟨"sha256:d2", "arm64", "linux"⟩] "s390x"
    (by decide) (by decide)

/-- Claim C6: the composite workflow never calls Sync when Compare reports
up to date; on the no-baseline outcome it calls Sync and, when that Sync
succeeds, returns success instead of the original error; and on every
other non-success Compare outcome it calls Sync. -/
theorem c6_reconcile_composite (env : CompareEnv) (fs : FileRead) (localArch : String)
    (syncErr : Option String) :
    (compareVerdict env fs localArch = Verdict.upToDate →
      SrcDigestAll (verdictToError localArch (compareVerdict env fs localArch)) syncErr
        = (none, false)) ∧
    (compareVerdict env fs localArch = Verdict.noBaseline →
      (SrcDigestAll (verdictToError localArch (compareVerdict env fs localArch)) syncErr).2
          = true ∧
      SrcDigestAll (verdictToError localArch (compareVerdict env fs localArch)) none
        = (none, true)) ∧
    (compareVerdict env fs localArch ≠ Verdict.upToDate →
      (SrcDigestAll (verdictToError localArch (compareVerdict env fs localArch)) syncErr).2
        = true) := by
  refine ⟨fun h => ?_, fun h => ?_, fun h => ?_⟩
  · rw [h]
    rfl
  · rw [h]
    refine ⟨srcDigestAll_some_snd _ _, ?_⟩
    show SrcDigestAll (some "no baseline file found") none = (none, true)
    decide
  · cases hv : compareVerdict env fs localArch with
    | upToDate => exact absurd hv h
    | noBaseline => exact srcDigestAll_some_snd _ _
    | manifestDrifted => exact srcDigestAll_some_snd _ _
    | archDrifted => exact srcDigestAll_some_snd _ _
    | missingArchEntry => exact srcDigestAll_some_snd _ _
    | toolError msg => exact srcDigestAll_some_snd _ _

/-- Witness for claim C6: a concrete no-baseline run whose Sync succeeds
ends in success with Sync having been called. -/
theorem c6_witness :
    SrcDigestAll (verdictToError "amd64"
      (compareVerdict ⟨true, FetchResult.ok "sha256:l", FetchResult.ok "sha256:a"⟩
        FileRead.absent "amd64")) none = (none, true) :=
  ((c6_reconcile_composite ⟨true, FetchResult.ok "sha256:l", FetchResult.ok "sha256:a"⟩
      FileRead.absent "amd64" none).2.1 (by decide)).2

/-- Counterexample to claim C7: a state whose baseline no longer matches
the unchanged upstream digests yields the manifest-drift verdict on both
consecutive Compare calls, not the up-to-date verdict. -/
theorem c7_counterexample :
    (compareRun ⟨true, FetchResult.ok "sha256:new", FetchResult.ok "sha256:a"⟩
      (FileRead.parsed ⟨"factoriotools/factorio", "2.0.69", "sha256:old",
        [("amd64", "sha256:a")], 0⟩) "amd64").1 = Verdict.manifestDrifted ∧
    (compareRun ⟨true, FetchResult.ok "sha256:new", FetchResult.ok "sha256:a"⟩
      ((compareRun ⟨true, FetchResult.ok "sha256:new", FetchResult.ok "sha256:a"⟩
        (FileRead.parsed ⟨"factoriotools/factorio", "2.0.69", "sha256:old",
          [("amd64", "sha256:a")], 0⟩) "amd64").2) "amd64").1 = Verdict.manifestDrifted ∧
    Verdict.manifestDrifted ≠ Verdict.upToDate := by
  decide

/-- Claim C7 amended: Compare never mutates the baseline file, so with
unchanged upstream digests two consecutive calls return the same verdict,
and when the first call reports up to date so does the second. -/
theorem c7_compare_readonly_idempotent (env : CompareEnv) (fs : FileRead)
    (localArch : String) :
    (compareRun env fs localArch).2 = fs ∧
    (compareRun env ((compareRun env fs localArch).2) localArch).1
      = (compareRun env fs localArch).1 ∧
    ((compareRun env fs localArch).1 = Verdict.upToDate →
      (compareRun env ((compareRun env fs localArch).2) localArch).1
        = Verdict.upToDate) := by
  exact ⟨rfl, rfl, fun h => h⟩

/-- Witness for the amended claim C7 at a concrete synced state. -/
theorem c7_witness :
    (compareRun ⟨true, FetchResult.ok "sha256:lll", FetchResult.ok "sha256:aaa"⟩
      ((compareRun ⟨true, FetchResult.ok "sha256:lll", FetchResult.ok "sha256:aaa"⟩
        (FileRead.parsed ⟨"factoriotools/factorio", "2.0.69", "sha256:lll",
          [("amd64", "sha256:aaa")], 0⟩) "amd64").2) "amd64").1 = Verdict.upToDate :=
  (c7_compare_readonly_idempotent
      ⟨true, FetchResult.ok "sha256:lll", FetchResult.ok "sha256:aaa"⟩
      (FileRead.parsed ⟨"factoriotools/factorio", "2.0.69", "sha256:lll",
        [("amd64", "sha256:aaa")], 0⟩) "amd64").2.2 (by decide)

/-- Counterexample to claim C8: with no baseline file but the docker
binary unavailable, Compare returns the tool error, not the no-baseline
verdict, because the adapter is consulted before the baseline is loaded. -/
theorem c8_counterexample :
    compareVerdict ⟨false, FetchResult.ok "sha256:l", FetchResult.ok "sha256:a"⟩
      FileRead.absent "amd64" = Verdict.toolError dockerMissingMsg ∧
    Verdict.toolError dockerMissingMsg ≠ Verdict.noBaseline := by
  decide

/-- Claim C8 amended: Compare queries the adapter first; with the docker
binary missing the tool error preempts every baseline state, and the
no-baseline verdict is returned for an absent baseline only when the tool
is available and both digest fetches succeed. -/
theorem c8_adapter_before_baseline (env : CompareEnv) (localArch : String) :
    (env.dockerAvailable = false →
      ∀ fs, compareVerdict env fs localArch = Verdict.toolError dockerMissingMsg) ∧
    (∀ currentList currentArch,
      env.dockerAvailable = true →
      env.listDigest = FetchResult.ok currentList →
      env.archDigest = FetchResult.ok currentArch →
      compareVerdict env FileRead.absent localArch = Verdict.noBaseline) := by
  constructor
  · intro hd fs
    unfold compareVerdict
    rw [hd]
    simp
  · intro currentList currentArch hd hl ha
    unfold compareVerdict
    rw [hd, hl, ha]
    simp

/-- Witness for the amended claim C8 at a concrete absent baseline. -/
theorem c8_witness :
    compareVerdict ⟨true, FetchResult.ok "sha256:l", FetchResult.ok "sha256:a"⟩
      FileRead.absent "amd64" = Verdict.noBaseline :=
  (c8_adapter_before_baseline ⟨true, FetchResult.ok "sha256:l", FetchResult.ok "sha256:a"⟩
    "amd64").2 "sha256:l" "sha256:a" rfl rfl rfl

/-- Counterexample to claim C9: two successful Sync calls inside the same
wall-clock second, the second strictly later and with a changed upstream
manifest-list digest, record the new digest but equal, second-truncated
updated times, so the timestamp does not strictly increase. -/
theorem c9_counterexample :
    ((100 : Nat) < 500) ∧
    ("sha256:aaa" : String) ≠ "sha256:bbb" ∧
    (Sync (some (Sync none ⟨"sha256:aaa", [], 100⟩)) ⟨"sha256:bbb", [], 500⟩).manifestList
      = "sha256:bbb" ∧
    ¬ ((Sync none ⟨"sha256:aaa", [], 100⟩).updatedAt
        < (Sync (some (Sync none ⟨"sha256:aaa", [], 100⟩)) ⟨"sha256:bbb", [], 500⟩).updatedAt) := by
  decide

/-- Claim C9 amended: after two Sync calls the second baseline always
records the newly fetched manifest-list digest; its updated time is the
clock of the second call truncated to whole seconds, hence non-decreasing under
a monotone clock and strictly increasing exactly when the second call
falls in a later whole second. -/
theorem c9_sync_updates_manifest_and_time (prior : Option MultiArchMetadata)
    (env1 env2 : SyncEnv) :
    (Sync (some (Sync prior env1)) env2).manifestList = env2.listDigest ∧
    (Sync (some (Sync prior env1)) env2).updatedAt = truncSec env2.nowNanos ∧
    (env1.nowNanos ≤ env2.nowNanos →
      (Sync prior env1).updatedAt ≤ (Sync (some (Sync prior env1)) env2).updatedAt) ∧
    (truncSec env1.nowNanos < truncSec env2.nowNanos →
      (Sync prior env1).updatedAt < (Sync (some (Sync prior env1)) env2).updatedAt) := by
  refine ⟨rfl, rfl, fun h => ?_, fun h => h⟩
  exact truncSec_mono h

/-- Witness for the amended claim C9 at concrete times one second apart. -/
theorem c9_witness :
    (Sync none ⟨"sha256:aaa", [], 0⟩).updatedAt
      < (Sync (some (Sync none ⟨"sha256:aaa", [], 0⟩)) ⟨"sha256:bbb", [], 2000000000⟩).updatedAt :=
  (c9_sync_updates_manifest_and_time none ⟨"sha256:aaa", [], 0⟩
    ⟨"sha256:bbb", [], 2000000000⟩).2.2.2 (by decide)

/-- Claim C10: the carry-forward loop copies every stored entry verbatim
with no allow-list check, so an architecture key outside the allow-list
that is already stored keeps its stored digest in the Sync output. -/
theorem c10_carry_forward_unchecked :
    (∀ (old : DigestMap) (k : String), (old.map Prod.fst).Nodup →
      lookupArch (carryForward old) k = lookupArch old k) ∧
    (∀ (old : DigestMap) (ms : List ManifestEntry) (k : String),
      (old.map Prod.fst).Nodup → isValidArch k = false →
      lookupArch (syncDigests old ms) k = lookupArch old k) := by
  constructor
  · intro old k h
    exact carryForward_lookup old k h
  · intro old ms k hnd hk
    unfold syncDigests
    rw [applyManifest_lookup_untouched ms _ k (fun _ _ _ => hk)]
    exact carryForward_lookup old k hnd

/-- Witness for claim C10: a disallowed stored key survives a Sync whose
manifest even offers a fresh digest for that architecture. -/
theorem c10_witness :
    lookupArch (syncDigests [("s390x", "sha256:oldz")]
      [⟨"sha256:newz", "s390x", "linux"⟩]) "s390x" = some "sha256:oldz" := by
  have h := c10_carry_forward_unchecked.2 [("s390x", "sha256:oldz")]
    [⟨"sha256:newz", "s390x", "linux"⟩] "s390x" (by decide) (by decide)
  exact h.trans (by decide)
